import Mathlib

/-!
Shallow embedding of the Heart-disease-prediction repository
(`app.py` feature-derivation/prediction pipeline and `train_model.py`
training pipeline).

Conventions of the embedding:

* The Streamlit form widgets become inductive enumerations listing the
  exact option sets of `app.py` (lines 19-66); the slider/number inputs
  become `ℕ` fields.
* Python's float arithmetic in `estimate_trestbps` / `estimate_chol` /
  `estimate_oldpeak` is embedded as exact rational (`ℚ`) arithmetic.
  This is justified on the whole input domain (age ∈ [18,100], all rank
  combinations): the only non-integer constants are 0.2, 0.8, 0.6, 0.3,
  whose accumulated IEEE-754 error (≤ ~1e-15) never crosses an integer
  boundary of `int(...)` nor a 0.1-grid boundary of `round(..., 1)`,
  because every exact value has fractional part a multiple of 1/10.
  This was checked exhaustively over the domain.
* Python's `int()` truncates toward zero; `pyInt` below reproduces this
  on rationals.
-/

namespace HeartApp

/-- Python `int()` on a rational value: truncation toward zero. -/
def pyInt (q : ℚ) : ℤ := if 0 ≤ q then ⌊q⌋ else ⌈q⌉

/-- `st.radio("What is your gender?", ["Male", "Female"])`, app.py line 20. -/
inductive Gender
  | male
  | female
deriving DecidableEq

/-- `["Never", "Occasionally", "Daily"]`, app.py lines 22-26. -/
inductive Smoking
  | never
  | occasionally
  | daily
deriving DecidableEq

/-- `["Rarely", "1-2 days/week", "3-5 days/week", "Everyday"]`, app.py lines 27-31. -/
inductive Exercise
  | rarely
  | oneToTwoDays
  | threeToFiveDays
  | everyday
deriving DecidableEq

/-- `["Poor", "Average", "Healthy"]`, app.py lines 32-36. -/
inductive Diet
  | poor
  | average
  | healthy
deriving DecidableEq

/-- `["Low", "Moderate", "High"]`, app.py lines 37-41. -/
inductive Stress
  | low
  | moderate
  | high
deriving DecidableEq

/-- `["No", "Yes"]`, app.py lines 42-44. -/
inductive FamilyHistory
  | no
  | yes
deriving DecidableEq

/-- `["Underweight", "Normal", "Overweight", "Obese"]`, app.py lines 45-49. -/
inductive Weight
  | underweight
  | normal
  | overweight
  | obese
deriving DecidableEq

/-- `["Poor", "Average", "Good"]`, app.py lines 50-53. -/
inductive Sleep
  | poor
  | average
  | good
deriving DecidableEq

/-- The required categorical/ordinal answers of the form
(app.py lines 19-53). The slider constrains `age` to [18,100]; the
theorems that depend on that range state it as a hypothesis. -/
structure UserResponses where
  age : ℕ
  gender : Gender
  smoking : Smoking
  exercise : Exercise
  diet : Diet
  stress : Stress
  family_history : FamilyHistory
  weight : Weight
  sleep : Sleep
deriving DecidableEq

/-- `sex = 1 if gender == "Male" else 0`, app.py line 71. -/
def sex (r : UserResponses) : ℤ :=
  if r.gender = .male then 1 else 0

/-- `{"Never": 0, "Occasionally": 1, "Daily": 2}[smoking]`, app.py line 73. -/
def smoke_score (r : UserResponses) : ℕ :=
  match r.smoking with
  | .never => 0
  | .occasionally => 1
  | .daily => 2

/-- `{"Rarely": 0, "1-2 days/week": 1, "3-5 days/week": 2, "Everyday": 3}[exercise]`,
app.py line 74. -/
def exercise_score (r : UserResponses) : ℕ :=
  match r.exercise with
  | .rarely => 0
  | .oneToTwoDays => 1
  | .threeToFiveDays => 2
  | .everyday => 3

/-- `{"Poor": 0, "Average": 1, "Healthy": 2}[diet]`, app.py line 75. -/
def diet_score (r : UserResponses) : ℕ :=
  match r.diet with
  | .poor => 0
  | .average => 1
  | .healthy => 2

/-- `{"Low": 0, "Moderate": 1, "High": 2}[stress]`, app.py line 76. -/
def stress_score (r : UserResponses) : ℕ :=
  match r.stress with
  | .low => 0
  | .moderate => 1
  | .high => 2

/-- `family_score = 1 if family_history == "Yes" else 0`, app.py line 77. -/
def family_score (r : UserResponses) : ℕ :=
  if r.family_history = .yes then 1 else 0

/-- `{"Underweight": 0, "Normal": 1, "Overweight": 2, "Obese": 3}[weight]`,
app.py line 78. -/
def weight_score (r : UserResponses) : ℕ :=
  match r.weight with
  | .underweight => 0
  | .normal => 1
  | .overweight => 2
  | .obese => 3

/-- `{"Poor": 0, "Average": 1, "Good": 2}[sleep]`, app.py line 79. -/
def sleep_score (r : UserResponses) : ℕ :=
  match r.sleep with
  | .poor => 0
  | .average => 1
  | .good => 2

/-- app.py lines 82-84:
`base = 110 + (age - 18) * 0.2; return int(base + stress_score * 8 + weight_score * 7)`. -/
def estimate_trestbps (r : UserResponses) : ℤ :=
  pyInt ((110 + ((r.age : ℚ) - 18) * (2 / 10)) +
    (stress_score r : ℚ) * 8 + (weight_score r : ℚ) * 7)

/-- app.py lines 86-90:
`base = 160 + (age - 18) * 0.8; smoke_penalty = [0, 15, 30][smoke_score];
diet_adjust = [25, 10, -10][diet_score]; return int(base + smoke_penalty + diet_adjust)`.
The list lookups use `getD` with default 0; the scores are always in range,
so the default is never reached. -/
def estimate_chol (r : UserResponses) : ℤ :=
  pyInt ((160 + ((r.age : ℚ) - 18) * (8 / 10)) +
    (([0, 15, 30] : List ℚ).getD (smoke_score r) 0) +
    (([25, 10, -10] : List ℚ).getD (diet_score r) 0))

/-- app.py lines 92-95:
`base = 200 - age; exercise_bonus = [-10, -5, 0, 5][exercise_score];
return int(max(90, min(200, base + exercise_bonus - stress_score * 5)))`.
All operands are Python ints, so this is exact integer arithmetic. -/
def estimate_thalach (r : UserResponses) : ℤ :=
  max 90 (min 200 ((200 - (r.age : ℤ)) +
    (([-10, -5, 0, 5] : List ℤ).getD (exercise_score r) 0) -
    (stress_score r : ℤ) * 5))

/-- app.py lines 97-98:
`return round(0.2 + stress_score * 0.6 + max(0, weight_score - 1) * 0.3, 1)`.
Every exact value already has a single decimal digit, so the 1-decimal
`round` is the identity on the exact rational value. -/
def estimate_oldpeak (r : UserResponses) : ℚ :=
  (2 + (stress_score r : ℚ) * 6 + (max 0 ((weight_score r : ℤ) - 1) : ℚ) * 3) / 10

/-- app.py lines 100-105. -/
def derive_cp (r : UserResponses) : ℤ :=
  if stress_score r = 2 ∧ exercise_score r = 0 then 2
  else if stress_score r = 2 ∧ smoke_score r = 2 then 1
  else 0

/-- app.py lines 107-112. -/
def derive_fbs (r : UserResponses) : ℤ :=
  if diet_score r = 0 ∧ weight_score r = 3 then 1
  else if 60 ≤ r.age ∧ diet_score r = 0 then 1
  else 0

/-- app.py lines 114-115: `return 0`. -/
def derive_restecg (_ : UserResponses) : ℤ := 0

/-- app.py lines 117-118:
`return 1 if (exercise_score == 0 and stress_score >= 1) else 0`. -/
def derive_exang (r : UserResponses) : ℤ :=
  if exercise_score r = 0 ∧ 1 ≤ stress_score r then 1 else 0

/-- app.py lines 120-125. -/
def derive_slope (r : UserResponses) : ℤ :=
  if 2 ≤ exercise_score r ∧ stress_score r = 0 then 0
  else if stress_score r = 2 then 2
  else 1

/-- app.py lines 127-128:
`return 1 if (age >= 60 and smoke_score == 2) else 0`. -/
def derive_ca (r : UserResponses) : ℤ :=
  if 60 ≤ r.age ∧ smoke_score r = 2 then 1 else 0

/-- app.py lines 130-131: `return 2 if family_score == 1 else 1`. -/
def derive_thal (r : UserResponses) : ℤ :=
  if family_score r = 1 then 2 else 1

/-- `["Unknown", "No", "Yes"]`, app.py line 59. -/
inductive FbsOpt
  | unknown
  | no
  | yes
deriving DecidableEq

/-- `["Unknown", "Normal", "ST-T wave abnormality", "Left ventricular hypertrophy"]`,
app.py line 60. -/
inductive RestEcgOpt
  | unknown
  | normal
  | sttAbnormality
  | lvHypertrophy
deriving DecidableEq

/-- `["Unknown", "No", "Yes"]`, app.py line 62. -/
inductive ExangOpt
  | unknown
  | no
  | yes
deriving DecidableEq

/-- `["Unknown", "Upsloping", "Flat", "Downsloping"]`, app.py line 64. -/
inductive SlopeOpt
  | unknown
  | upsloping
  | flat
  | downsloping
deriving DecidableEq

/-- `["Unknown", "Normal", "Fixed defect", "Reversible defect"]`, app.py line 66. -/
inductive ThalOpt
  | unknown
  | normal
  | fixedDefect
  | reversibleDefect
deriving DecidableEq

/-- The optional clinical overrides of the expander (app.py lines 56-66).
The number inputs are bounded by the widgets (trestbps ≤ 300, chol ≤ 800,
thalach ≤ 230, oldpeak ≤ 10, ca ≤ 4); the theorems below hold without
needing the upper bounds, so they are not baked into the type.
`oldpeak_opt` is an exact rational (step 0.1, default 0.0). -/
structure Overrides where
  trestbps_opt : ℕ
  chol_opt : ℕ
  fbs_opt : FbsOpt
  restecg_opt : RestEcgOpt
  thalach_opt : ℕ
  exang_opt : ExangOpt
  oldpeak_opt : ℚ
  slope_opt : SlopeOpt
  ca_opt : ℕ
  thal_opt : ThalOpt
deriving DecidableEq

/-- The widget default values of the expander: every numeric input 0,
every selectbox at index 0 ("Unknown"). -/
def defaultOverrides : Overrides :=
  { trestbps_opt := 0
    chol_opt := 0
    fbs_opt := .unknown
    restecg_opt := .unknown
    thalach_opt := 0
    exang_opt := .unknown
    oldpeak_opt := 0
    slope_opt := .unknown
    ca_opt := 0
    thal_opt := .unknown }

/-!
Resolution of the 13 features (app.py lines 133-144). In the running app
every `*_opt` variable is always bound (the form always creates the
widgets), so every `'..._opt' in locals()` test is true and only the
non-zero / non-Unknown checks remain.
-/

/-- app.py line 134: `trestbps = int(trestbps_opt) if ... and trestbps_opt > 0 else estimate_trestbps()`. -/
def trestbps (r : UserResponses) (o : Overrides) : ℤ :=
  if 0 < o.trestbps_opt then (o.trestbps_opt : ℤ) else estimate_trestbps r

/-- app.py line 135: `chol = int(chol_opt) if ... and chol_opt > 0 else estimate_chol()`. -/
def chol (r : UserResponses) (o : Overrides) : ℤ :=
  if 0 < o.chol_opt then (o.chol_opt : ℤ) else estimate_chol r

/-- app.py line 136: `fbs = {"Unknown": derive_fbs(), "No": 0, "Yes": 1}[fbs_opt]`. -/
def fbs (r : UserResponses) (o : Overrides) : ℤ :=
  match o.fbs_opt with
  | .unknown => derive_fbs r
  | .no => 0
  | .yes => 1

/-- app.py line 137: `restecg = {"Unknown": derive_restecg(), "Normal": 0,
"ST-T wave abnormality": 1, "Left ventricular hypertrophy": 2}[restecg_opt]`. -/
def restecg (r : UserResponses) (o : Overrides) : ℤ :=
  match o.restecg_opt with
  | .unknown => derive_restecg r
  | .normal => 0
  | .sttAbnormality => 1
  | .lvHypertrophy => 2

/-- app.py line 138: `thalach = int(thalach_opt) if ... and thalach_opt > 0 else estimate_thalach()`. -/
def thalach (r : UserResponses) (o : Overrides) : ℤ :=
  if 0 < o.thalach_opt then (o.thalach_opt : ℤ) else estimate_thalach r

/-- app.py line 139: `exang = {"Unknown": derive_exang(), "No": 0, "Yes": 1}[exang_opt]`. -/
def exang (r : UserResponses) (o : Overrides) : ℤ :=
  match o.exang_opt with
  | .unknown => derive_exang r
  | .no => 0
  | .yes => 1

/-- app.py line 140: `oldpeak = float(oldpeak_opt) if ... and oldpeak_opt > 0 else estimate_oldpeak()`. -/
def oldpeak (r : UserResponses) (o : Overrides) : ℚ :=
  if 0 < o.oldpeak_opt then o.oldpeak_opt else estimate_oldpeak r

/-- app.py line 141: `slope = {"Unknown": derive_slope(), "Upsloping": 0,
"Flat": 1, "Downsloping": 2}[slope_opt]`. -/
def slope (r : UserResponses) (o : Overrides) : ℤ :=
  match o.slope_opt with
  | .unknown => derive_slope r
  | .upsloping => 0
  | .flat => 1
  | .downsloping => 2

/-- app.py line 142: `ca = int(ca_opt) if 'ca_opt' in locals() else derive_ca()`.
Note: unlike the other numeric fields there is NO `ca_opt > 0` check, and
`ca_opt` is always in `locals()`, so the slider value is used
unconditionally and `derive_ca()` is unreachable from this line. -/
def ca (_ : UserResponses) (o : Overrides) : ℤ :=
  (o.ca_opt : ℤ)

/-- app.py line 143: `thal = {"Unknown": derive_thal(), "Normal": 1,
"Fixed defect": 2, "Reversible defect": 3}[thal_opt]`. -/
def thal (r : UserResponses) (o : Overrides) : ℤ :=
  match o.thal_opt with
  | .unknown => derive_thal r
  | .normal => 1
  | .fixedDefect => 2
  | .reversibleDefect => 3

/-- app.py line 144: `cp = derive_cp()` (no clinical override exists for it). -/
def cp (r : UserResponses) (_ : Overrides) : ℤ :=
  derive_cp r

/-- The 13-field feature row `X = np.array([[age, sex, cp, trestbps, chol,
fbs, restecg, thalach, exang, float(oldpeak), slope, ca, thal]])`,
app.py lines 159-173. NumPy stores it as floats; embedded as `ℚ`. -/
def X (r : UserResponses) (o : Overrides) : List ℚ :=
  [(r.age : ℚ),
   (sex r : ℚ),
   (cp r o : ℚ),
   (trestbps r o : ℚ),
   (chol r o : ℚ),
   (fbs r o : ℚ),
   (restecg r o : ℚ),
   (thalach r o : ℚ),
   (exang r o : ℚ),
   oldpeak r o,
   (slope r o : ℚ),
   (ca r o : ℚ),
   (thal r o : ℚ)]

/-- app.py line 176:
`pred_label = "High Risk 💔" if pred_prob > 0.5 else "Low Risk ❤️"`. -/
def pred_label (pred_prob : ℚ) : String :=
  if pred_prob > 1 / 2 then "High Risk 💔" else "Low Risk ❤️"

/-- A fitted classifier, treated as a capability: given the 13-number row,
return the positive-class probability (`model.predict_proba(X)[0][1]`). -/
structure Model where
  predict_pos_prob : List ℚ → ℚ

/-- Modelled from the spec: the state of the `model.pkl` artifact file read
by `pickle.load` (app.py lines 7-9). The file may be missing, hold bytes
that do not unpickle to a model (malformed), or hold a fitted model; per
spec §7 the first two cases make `pickle.load` raise. -/
inductive ArtifactFile
  | missing
  | malformed
  | wellFormed (m : Model)

/-- Modelled from the spec: `pickle.load` on the opened artifact file.
A missing file raises FileNotFoundError at `open`; malformed bytes raise
UnpicklingError. app.py wraps neither in a handler, so a raise aborts the
script; embedded as `Except` with no recovery. -/
def load_model : ArtifactFile → Except String Model
  | .missing => .error "FileNotFoundError"
  | .malformed => .error "UnpicklingError"
  | .wellFormed m => .ok m

/-- The inference run of app.py: load the model (lines 7-9), then compute
`pred_prob = float(model.predict_proba(X)[0][1])` (line 175) on the
resolved feature row. There is no fallback, retry, or exception handler
anywhere in the script, so a load failure propagates. -/
def run_app (file : ArtifactFile) (r : UserResponses) (o : Overrides) :
    Except String ℚ :=
  (load_model file).map fun m => m.predict_pos_prob (X r o)

/-! Embedding of `train_model.py`. -/

/-- The four steps of train_model.py in program order:
`pd.read_csv` (line 7), `train_test_split` (line 14),
`model.fit` (lines 15-16), `pickle.dump` (lines 19-20). -/
inductive TrainStep
  | loadDataset
  | splitData
  | fitModel
  | saveModel
deriving DecidableEq, BEq

/-- train_model.py executes its steps top to bottom in this order. -/
def train_pipeline : List TrainStep :=
  [.loadDataset, .splitData, .fitModel, .saveModel]

/-- Arguments of `train_test_split(X, y, test_size=0.2, random_state=42)`,
train_model.py line 14. -/
structure SplitParams where
  test_size : ℚ
  random_state : ℕ

def split_params : SplitParams :=
  { test_size := 2 / 10, random_state := 42 }

/-- Arguments of `RandomForestClassifier(n_estimators=200, random_state=42)`,
train_model.py line 15. -/
structure ForestParams where
  n_estimators : ℕ
  random_state : ℕ

def forest_params : ForestParams :=
  { n_estimators := 200, random_state := 42 }

/-- The concrete responses of the spec's worked example: age=45, Male,
smoking Daily, exercise Rarely, diet Poor, stress High, family history Yes,
weight Obese, sleep Poor. -/
def exampleResponse : UserResponses :=
  { age := 45
    gender := .male
    smoking := .daily
    exercise := .rarely
    diet := .poor
    stress := .high
    family_history := .yes
    weight := .obese
    sleep := .poor }

/-- All entries of two 13-entry feature rows agree except possibly at
index `i`. -/
def eqExcept (xs ys : List ℚ) (i : ℕ) : Prop :=
  ∀ j, j < 13 → j ≠ i → xs.getD j 0 = ys.getD j 0

/-- Responses of a 60-year-old daily smoker (all other answers as in the
worked example). Here `derive_ca` returns 1 (age ≥ 60 and smoking rank 2). -/
def olderSmokerResponse : UserResponses :=
  { age := 60
    gender := .male
    smoking := .daily
    exercise := .rarely
    diet := .poor
    stress := .high
    family_history := .yes
    weight := .obese
    sleep := .poor }

/-- C1: on the worked example (age=45, Male, smoking Daily, exercise Rarely,
diet Poor, stress High, family history Yes, weight Obese, sleep Poor) with
no overrides, the ordinal ranks are smoking=2, exercise=0, diet=0, stress=2,
weight=3, sleep=0; the derived vector has sex=1, chest-pain type 2,
fasting-blood-sugar flag 1, thalassemia code 2; and resting blood pressure,
cholesterol and max heart rate equal the estimation formulas evaluated at
those ranks (152, 236 and 135 respectively). -/
theorem example_vector_matches_derivations :
    smoke_score exampleResponse = 2 ∧
    exercise_score exampleResponse = 0 ∧
    diet_score exampleResponse = 0 ∧
    stress_score exampleResponse = 2 ∧
    weight_score exampleResponse = 3 ∧
    sleep_score exampleResponse = 0 ∧
    sex exampleResponse = 1 ∧
    cp exampleResponse defaultOverrides = 2 ∧
    fbs exampleResponse defaultOverrides = 1 ∧
    thal exampleResponse defaultOverrides = 2 ∧
    trestbps exampleResponse defaultOverrides = estimate_trestbps exampleResponse ∧
    estimate_trestbps exampleResponse = 152 ∧
    chol exampleResponse defaultOverrides = estimate_chol exampleResponse ∧
    estimate_chol exampleResponse = 236 ∧
    thalach exampleResponse defaultOverrides = estimate_thalach exampleResponse ∧
    estimate_thalach exampleResponse = 135 := by
  refine ⟨by decide, by decide, by decide, by decide, by decide, by decide,
    by decide, by decide, by decide, by decide, rfl, ?_, rfl, ?_, rfl, by decide⟩
  · norm_num [estimate_trestbps, pyInt, exampleResponse, stress_score, weight_score]
  · norm_num [estimate_chol, pyInt, exampleResponse, smoke_score, diet_score]

/-- C4: for every response with age in [18,100] (the ordinal ranks are valid
by construction of the enumerations), the estimated max heart rate lies in
[90,200]. The clamp `max(90, min(200, ...))` enforces this. -/
theorem estimate_thalach_in_range (r : UserResponses)
    (_h1 : 18 ≤ r.age) (_h2 : r.age ≤ 100) :
    90 ≤ estimate_thalach r ∧ estimate_thalach r ≤ 200 := by
  unfold estimate_thalach
  refine ⟨le_max_left _ _, max_le (by norm_num) (min_le_left _ _)⟩

theorem estimate_thalach_in_range_witness :
    90 ≤ estimate_thalach exampleResponse ∧ estimate_thalach exampleResponse ≤ 200 :=
  estimate_thalach_in_range exampleResponse (by decide) (by decide)

/-- C5: for every probability p in [0,1] the risk label is the high-risk
label iff p is strictly greater than 1/2; at p = 1/2 exactly the label is
the low-risk label. -/
theorem pred_label_high_iff :
    (∀ p : ℚ, 0 ≤ p → p ≤ 1 →
      (pred_label p = "High Risk 💔" ↔ 1 / 2 < p)) ∧
    pred_label (1 / 2 : ℚ) = "Low Risk ❤️" := by
  constructor
  · intro p _ _
    unfold pred_label
    by_cases hp : (1 / 2 : ℚ) < p
    · rw [if_pos hp]
      exact iff_of_true rfl hp
    · rw [if_neg hp]
      exact iff_of_false (by decide) hp
  · norm_num [pred_label]

theorem pred_label_high_iff_witness :
    pred_label (3 / 4 : ℚ) = "High Risk 💔" :=
  (pred_label_high_iff.1 (3 / 4) (by norm_num) (by norm_num)).mpr (by norm_num)

/-- C6: the training pipeline splits the rows 80/20 (test_size 1/5, so the
training fraction is 4/5) with fixed seed 42, fits a random forest with
exactly 200 trees and fixed seed 42, and the fit step precedes the
serialization step in the pipeline order. -/
theorem train_pipeline_config :
    split_params.test_size = 1 / 5 ∧
    1 - split_params.test_size = 4 / 5 ∧
    split_params.random_state = 42 ∧
    forest_params.n_estimators = 200 ∧
    forest_params.random_state = 42 ∧
    train_pipeline.indexOf .fitModel < train_pipeline.indexOf .saveModel := by
  refine ⟨by norm_num [split_params], by norm_num [split_params], rfl, rfl, rfl,
    by decide⟩

/-- C9: the chest-pain entry of the feature row (index 2) always equals
`derive_cp` of the categorical answers; it does not depend on the optional
clinical overrides at all. -/
theorem cp_ignores_overrides (r : UserResponses) (o o' : Overrides) :
    (X r o).getD 2 0 = (derive_cp r : ℚ) ∧
    (X r o).getD 2 0 = (X r o').getD 2 0 := by
  exact ⟨rfl, rfl⟩

/-- C10: the resting-ECG derivation is the constant 0, and whenever the
resting-ECG override is "Unknown" the resting-ECG entry of the feature row
(index 6) is 0, for every response and every other override. -/
theorem restecg_default_zero (r : UserResponses) (o : Overrides)
    (h : o.restecg_opt = .unknown) :
    derive_restecg r = 0 ∧ (X r o).getD 6 0 = 0 := by
  refine ⟨rfl, ?_⟩
  simp [X, restecg, h, derive_restecg]

theorem restecg_default_zero_witness :
    derive_restecg exampleResponse = 0 ∧
    (X exampleResponse defaultOverrides).getD 6 0 = 0 :=
  restecg_default_zero exampleResponse defaultOverrides rfl

/-- C2 counterexample: the claim fails for the vessel-count field. With the
vessel-count slider left at its default 0 (all overrides at defaults), the
claim requires the field to equal `derive_ca`; but for a 60-year-old daily
smoker `derive_ca` is 1 while the resolved field is the slider value 0,
because line 142 of app.py uses the slider value unconditionally. -/
theorem ca_ignores_derivation_counterexample :
    defaultOverrides.ca_opt = 0 ∧
    derive_ca olderSmokerResponse = 1 ∧
    ca olderSmokerResponse defaultOverrides ≠ derive_ca olderSmokerResponse := by
  decide

/-- C2 (amended): for every response and every combination of overrides,
each clinical field except vessel count uses the directly supplied value
iff it is meaningfully non-default (nonzero for trestbps/chol/thalach/
oldpeak, non-Unknown for fbs/restecg/exang/slope/thal) and otherwise its
derived/estimated value; the vessel-count field instead always equals the
supplied slider value and its derivation is never used. -/
theorem override_resolution_amended (r : UserResponses) (o : Overrides) :
    (0 < o.trestbps_opt → trestbps r o = (o.trestbps_opt : ℤ)) ∧
    (o.trestbps_opt = 0 → trestbps r o = estimate_trestbps r) ∧
    (0 < o.chol_opt → chol r o = (o.chol_opt : ℤ)) ∧
    (o.chol_opt = 0 → chol r o = estimate_chol r) ∧
    (o.fbs_opt = .no → fbs r o = 0) ∧
    (o.fbs_opt = .yes → fbs r o = 1) ∧
    (o.fbs_opt = .unknown → fbs r o = derive_fbs r) ∧
    (o.restecg_opt = .normal → restecg r o = 0) ∧
    (o.restecg_opt = .sttAbnormality → restecg r o = 1) ∧
    (o.restecg_opt = .lvHypertrophy → restecg r o = 2) ∧
    (o.restecg_opt = .unknown → restecg r o = derive_restecg r) ∧
    (0 < o.thalach_opt → thalach r o = (o.thalach_opt : ℤ)) ∧
    (o.thalach_opt = 0 → thalach r o = estimate_thalach r) ∧
    (o.exang_opt = .no → exang r o = 0) ∧
    (o.exang_opt = .yes → exang r o = 1) ∧
    (o.exang_opt = .unknown → exang r o = derive_exang r) ∧
    (0 < o.oldpeak_opt → oldpeak r o = o.oldpeak_opt) ∧
    (¬ 0 < o.oldpeak_opt → oldpeak r o = estimate_oldpeak r) ∧
    (o.slope_opt = .upsloping → slope r o = 0) ∧
    (o.slope_opt = .flat → slope r o = 1) ∧
    (o.slope_opt = .downsloping → slope r o = 2) ∧
    (o.slope_opt = .unknown → slope r o = derive_slope r) ∧
    (o.thal_opt = .normal → thal r o = 1) ∧
    (o.thal_opt = .fixedDefect → thal r o = 2) ∧
    (o.thal_opt = .reversibleDefect → thal r o = 3) ∧
    (o.thal_opt = .unknown → thal r o = derive_thal r) ∧
    ca r o = (o.ca_opt : ℤ) := by
  refine ⟨?_, ?_, ?_, ?_, ?_, ?_, ?_, ?_, ?_, ?_, ?_, ?_, ?_, ?_, ?_, ?_,
    ?_, ?_, ?_, ?_, ?_, ?_, ?_, ?_, ?_, ?_, rfl⟩ <;>
    intro h <;>
    simp [trestbps, chol, fbs, restecg, thalach, exang, oldpeak, slope, thal, h]

theorem override_resolution_amended_witness :
    trestbps exampleResponse { defaultOverrides with trestbps_opt := 120 } = (120 : ℤ) :=
  (override_resolution_amended exampleResponse
    { defaultOverrides with trestbps_opt := 120 }).1 (by decide)

/-- C3: for every set of categorical answers, overriding any single
clinical field with a non-default value (all other overrides left at their
widget defaults) leaves every other entry of the 13-entry feature row
unchanged from the no-override row. The overridable fields sit at indices
3 (trestbps), 4 (chol), 5 (fbs), 6 (restecg), 7 (thalach), 8 (exang),
9 (oldpeak), 10 (slope), 11 (ca), 12 (thal). -/
theorem single_override_frame (r : UserResponses) :
    (∀ v : ℕ, 0 < v →
      eqExcept (X r { defaultOverrides with trestbps_opt := v })
        (X r defaultOverrides) 3) ∧
    (∀ v : ℕ, 0 < v →
      eqExcept (X r { defaultOverrides with chol_opt := v })
        (X r defaultOverrides) 4) ∧
    (∀ v : FbsOpt, v ≠ .unknown →
      eqExcept (X r { defaultOverrides with fbs_opt := v })
        (X r defaultOverrides) 5) ∧
    (∀ v : RestEcgOpt, v ≠ .unknown →
      eqExcept (X r { defaultOverrides with restecg_opt := v })
        (X r defaultOverrides) 6) ∧
    (∀ v : ℕ, 0 < v →
      eqExcept (X r { defaultOverrides with thalach_opt := v })
        (X r defaultOverrides) 7) ∧
    (∀ v : ExangOpt, v ≠ .unknown →
      eqExcept (X r { defaultOverrides with exang_opt := v })
        (X r defaultOverrides) 8) ∧
    (∀ v : ℚ, 0 < v →
      eqExcept (X r { defaultOverrides with oldpeak_opt := v })
        (X r defaultOverrides) 9) ∧
    (∀ v : SlopeOpt, v ≠ .unknown →
      eqExcept (X r { defaultOverrides with slope_opt := v })
        (X r defaultOverrides) 10) ∧
    (∀ v : ℕ, 0 < v →
      eqExcept (X r { defaultOverrides with ca_opt := v })
        (X r defaultOverrides) 11) ∧
    (∀ v : ThalOpt, v ≠ .unknown →
      eqExcept (X r { defaultOverrides with thal_opt := v })
        (X r defaultOverrides) 12) := by
  refine ⟨?_, ?_, ?_, ?_, ?_, ?_, ?_, ?_, ?_, ?_⟩
  all_goals
    intro v _ j hj hne
    interval_cases j <;> first | rfl | exact absurd rfl hne

theorem single_override_frame_witness :
    eqExcept (X exampleResponse { defaultOverrides with trestbps_opt := 120 })
      (X exampleResponse defaultOverrides) 3 :=
  (single_override_frame exampleResponse).1 120 (by decide)

/-- C7: feature derivation with no overrides is a pure deterministic
function of the answers: identical responses yield an identical 13-entry
feature row. -/
theorem derivation_deterministic (r₁ r₂ : UserResponses) (h : r₁ = r₂) :
    X r₁ defaultOverrides = X r₂ defaultOverrides := by
  rw [h]

theorem derivation_deterministic_witness :
    X exampleResponse defaultOverrides = X exampleResponse defaultOverrides :=
  derivation_deterministic exampleResponse exampleResponse rfl

/-- C8: if the model artifact file is missing or malformed, the inference
run yields an error and never a prediction: there is no fallback or retry
path in the script. -/
theorem missing_or_malformed_model_aborts (file : ArtifactFile)
    (r : UserResponses) (o : Overrides)
    (h : file = .missing ∨ file = .malformed) :
    (∃ e, run_app file r o = Except.error e) ∧
    ∀ p, run_app file r o ≠ Except.ok p := by
  rcases h with h | h <;> subst h <;>
    exact ⟨⟨_, rfl⟩, fun p hp => Except.noConfusion hp⟩

theorem missing_or_malformed_model_aborts_witness :
    (∃ e, run_app .missing exampleResponse defaultOverrides = Except.error e) ∧
    ∀ p, run_app .missing exampleResponse defaultOverrides ≠ Except.ok p :=
  missing_or_malformed_model_aborts .missing exampleResponse defaultOverrides
    (Or.inl rfl)

end HeartApp
